import Mathlib

/-!
Shallow embedding of the ClinAssist Edge multi-agent reasoning system
(`kaggle_submission/model/agent_system.py`) and of the drug interaction
checker (`kaggle_submission/model/drug_interactions.py`), with theorems
checking the natural-language specification against the code.

Modelling conventions:
* Python `float` arithmetic is modelled by `ℚ` (the constants involved are
  decimal literals; the claims checked here are robust to this choice).
* Python strings are Lean `String`s; `str.lower()` is `pyLower`
  (ASCII case folding, matching the ASCII drug/symptom data in the code);
  `needle in hay` is `pyIn`.
* Python dicts keyed by strings are insertion-ordered association lists
  (`Dict` below); overwriting a key keeps its original position, as CPython
  dicts do.
* `context.get(key, default)` is an `Option` field read with `Option.getD`.
-/

namespace ClinAssist

/-- The `AgentRole` enum from `agent_system.py`. -/
inductive AgentRole where
  | diagnostician
  | safety_monitor
  | documentation
  | evidence_lookup
  | coordinator
deriving DecidableEq, Repr

/-- Model of `AgentRole.value` (the string payload of each enum member). -/
def AgentRole.value : AgentRole → String
  | .diagnostician => "diagnostician"
  | .safety_monitor => "safety_monitor"
  | .documentation => "documentation"
  | .evidence_lookup => "evidence_lookup"
  | .coordinator => "coordinator"

/-- The ad hoc `PatientContext` dict: every expected key may be absent
(`none`). -/
structure PatientContext where
  symptoms : Option (List String) := none
  findings : Option (List String) := none
  allergies : Option (List String) := none
  medications : Option (List String) := none
  contraindications : Option (List String) := none
  red_flags : Option (List String) := none
  diagnosis : Option String := none
  tests : Option (List String) := none
  plan : Option String := none

/-- Python `str.lower()` (ASCII case folding), computed on the character
list so that the kernel can evaluate it. -/
def pyLower (s : String) : String := ⟨s.data.map Char.toLower⟩

/-- Tests that `needle` is a prefix of `hay` (character lists). -/
def isPrefixCh : List Char → List Char → Bool
  | [], _ => true
  | _ :: _, [] => false
  | a :: as, b :: bs => a == b && isPrefixCh as bs

/-- Tests that `needle` occurs contiguously in `hay` (character lists). -/
def isSubCh (needle : List Char) : List Char → Bool
  | [] => isPrefixCh needle []
  | c :: rest => isPrefixCh needle (c :: rest) || isSubCh needle rest

/-- Python `needle in hay` for strings (contiguous substring test). -/
def pyIn (needle hay : String) : Bool := isSubCh needle.data hay.data

/-- The `AgentResponse` dataclass. -/
structure AgentResponse where
  agent : AgentRole
  output : String
  confidence : ℚ
  reasoning : String
  next_agents : List AgentRole

/-! ### DiagnosticAgent -/

/-- One row of the Diagnostician's static symptom-profile table. -/
structure SymptomProfile where
  symptoms : List String
  findings : List String
  weight : ℚ

/-- The `symptom_profiles` table of `DiagnosticAgent._generate_differential`,
in the dict's insertion order. -/
def symptom_profiles : List (String × SymptomProfile) :=
  [ ("Pneumonia", ⟨["fever", "cough", "dyspnea"], ["crackles", "consolidation"], 95/100⟩),
    ("Bronchitis", ⟨["cough", "dyspnea"], ["wheezing"], 75/100⟩),
    ("Malaria", ⟨["fever", "chills", "headache"], ["anemia"], 90/100⟩),
    ("Tuberculosis", ⟨["chronic_cough", "fever", "weight_loss"], ["infiltrates"], 92/100⟩),
    ("Influenza", ⟨["fever", "cough", "myalgia"], ["normal_cxr"], 70/100⟩),
    ("COVID-19", ⟨["fever", "cough", "dyspnea"], ["ground_glass"], 88/100⟩) ]

/-- Stable insertion (P placed after all earlier items of key ≥ its key),
so that the foldl sort below is the stable descending sort Python's
`list.sort(key=..., reverse=True)` performs. -/
def insertDesc (x : String × ℚ) : List (String × ℚ) → List (String × ℚ)
  | [] => [x]
  | y :: ys => if x.2 > y.2 then x :: y :: ys else y :: insertDesc x ys

/-- Stable sort, descending by the score component. -/
def sortDesc (l : List (String × ℚ)) : List (String × ℚ) :=
  l.foldl (fun acc x => insertDesc x acc) []

/-- Model of `DiagnosticAgent._generate_differential`. -/
def generate_differential (symptoms findings : List String) : List (String × ℚ) :=
  let diagnoses_scores := symptom_profiles.filterMap (fun dp =>
    let profile := dp.2
    let symptom_matches :=
      (symptoms.filter (fun s => profile.symptoms.any (fun ps => pyIn ps (pyLower s)))).length
    let finding_matches :=
      (findings.filter (fun f => profile.findings.any (fun pf => pyIn pf (pyLower f)))).length
    let total_matches : Nat := symptom_matches + finding_matches
    let max_possible : Nat := profile.symptoms.length + profile.findings.length
    if max_possible > 0 then
      some (dp.1, ((total_matches : ℚ) / (max_possible : ℚ)) * profile.weight)
    else none)
  (sortDesc diagnoses_scores).take 5

/-- Python's `{c:.1%}` format: percentage with one decimal place
(rounded to the nearest tenth of a percent; the table data never hits a
tie, so the tie-breaking direction is immaterial). -/
def fmtPct (c : ℚ) : String :=
  let t : ℤ := ⌊c * 1000 + (1/2 : ℚ)⌋
  let sgn := if t < 0 then "-" else ""
  let a := t.natAbs
  sgn ++ toString (a / 10) ++ "." ++ toString (a % 10) ++ "%"

/-- The numbered lines of `DiagnosticAgent._format_differential`
(`enumerate(differential, 1)`). -/
def fmtDiffLines (i : Nat) : List (String × ℚ) → String
  | [] => ""
  | dc :: rest => toString i ++ ". " ++ dc.1 ++ ": " ++ fmtPct dc.2 ++ "\n"
      ++ fmtDiffLines (i + 1) rest

/-- Model of `DiagnosticAgent._format_differential`. -/
def format_differential (differential : List (String × ℚ)) : String :=
  "DIFFERENTIAL DIAGNOSES:\n" ++ fmtDiffLines 1 differential

/-- Model of `DiagnosticAgent.process`. -/
def diagProcess (query : String) (context : PatientContext) : AgentResponse :=
  let symptoms := context.symptoms.getD []
  let findings := context.findings.getD []
  let differential := generate_differential symptoms findings
  let reasoning := "Analyzed " ++ toString symptoms.length ++ " symptoms and "
      ++ toString findings.length ++ " findings to generate differential."
  { agent := .diagnostician
    output := format_differential differential
    confidence := match differential with
      | [] => 0
      | x :: _ => x.2
    reasoning := reasoning
    next_agents := [.safety_monitor, .evidence_lookup] }

/-! ### SafetyMonitorAgent -/

/-- The internal drug-interaction dict of
`SafetyMonitorAgent._identify_safety_issues`. -/
def smInteractions : List ((String × String) × String) :=
  [ (("aspirin", "warfarin"), "CRITICAL: Increased bleeding risk"),
    (("metformin", "contrast_dye"), "WARNING: Lactic acidosis risk"),
    (("ace_inhibitor", "potassium"), "WARNING: Hyperkalemia risk") ]

/-- Model of `SafetyMonitorAgent._identify_safety_issues`.  The `red_flags`
argument is accepted but (as in the source) never read. -/
def identify_safety_issues (treatment : String) (allergies medications
    contraindications red_flags : List String) : List String :=
  let treatment_lower := pyLower treatment
  let interactionIssues := smInteractions.filterMap (fun p =>
    if pyIn p.1.1 treatment_lower
        && medications.any (fun m => pyIn p.1.2 (pyLower m)) then
      some p.2
    else none)
  let allergyIssues := allergies.filterMap (fun allergy =>
    if pyIn (pyLower allergy) treatment_lower then
      some ("CRITICAL: Patient allergic to " ++ allergy)
    else none)
  let contraIssues := contraindications.filterMap (fun contraindication =>
    if pyIn (pyLower contraindication) treatment_lower then
      some ("CONTRAINDICATED: " ++ contraindication)
    else none)
  interactionIssues ++ allergyIssues ++ contraIssues

/-- The `safety_level` expression of `SafetyMonitorAgent.process`:
`"Safe" if not issues else "ALERT" if len(issues) > 2 else "Caution"`. -/
def safetyLevel (issues : List String) : String :=
  if issues.isEmpty then "Safe"
  else if issues.length > 2 then "ALERT"
  else "Caution"

/-- Model of `SafetyMonitorAgent._format_safety_report`. -/
def format_safety_report (issues : List String) (level : String) : String :=
  let header := "SAFETY ASSESSMENT: " ++ level ++ "\n"
  if issues.isEmpty then
    header ++ "No safety concerns identified.\n"
  else
    header ++ "Issues identified:\n"
      ++ String.join (issues.map (fun issue => "• " ++ issue ++ "\n"))

/-- Model of `SafetyMonitorAgent.process`.  Note the confidence is
`1.0 - len(issues) * 0.2` with no clamping in the source. -/
def safetyMonitorProcess (query : String) (context : PatientContext) : AgentResponse :=
  let allergies := context.allergies.getD []
  let current_medications := context.medications.getD []
  let contraindications := context.contraindications.getD []
  let red_flags := context.red_flags.getD []
  let issues := identify_safety_issues query allergies current_medications
      contraindications red_flags
  let reasoning := "Checked for interactions with "
      ++ toString current_medications.length ++ " medications and "
      ++ toString allergies.length ++ " allergies."
  let level := safetyLevel issues
  { agent := .safety_monitor
    output := format_safety_report issues level
    confidence := 1 - (issues.length : ℚ) * (1/5)
    reasoning := reasoning
    next_agents := if issues.isEmpty then [.documentation] else [.evidence_lookup] }

/-! ### DocumentationAgent -/

/-- Separator line (sixty equals signs). -/
def eqLine : String := String.mk (List.replicate 60 '=')

/-- Bulleted lines, one `• item\n` per list item. -/
def bulletLines (items : List String) : String :=
  String.join (items.map (fun item => "• " ++ item ++ "\n"))

/-- Model of `DocumentationAgent._generate_soap_note`. -/
def generate_soap_note (symptoms findings : List String) (diagnosis : String)
    (tests : List String) (plan : String) : String :=
  "CLINICAL NOTE - SOAP FORMAT\n" ++ eqLine ++ "\n\n"
    ++ "SUBJECTIVE:\n" ++ "Patient reports:\n" ++ bulletLines symptoms ++ "\n"
    ++ "OBJECTIVE:\n" ++ "Physical Examination:\n" ++ bulletLines findings
    ++ (if tests.isEmpty then "" else "\nDiagnostic Tests:\n" ++ bulletLines tests)
    ++ "\n"
    ++ "ASSESSMENT:\n" ++ diagnosis ++ "\n\n"
    ++ "PLAN:\n" ++ plan ++ "\n"

/-- Model of `DocumentationAgent.process`. -/
def docProcess (query : String) (context : PatientContext) : AgentResponse :=
  let diagnosis := context.diagnosis.getD ""
  let symptoms := context.symptoms.getD []
  let findings := context.findings.getD []
  let tests := context.tests.getD []
  let plan := context.plan.getD ""
  { agent := .documentation
    output := generate_soap_note symptoms findings diagnosis tests plan
    confidence := 95/100
    reasoning := "Generated SOAP note with complete clinical documentation."
    next_agents := [] }

/-! ### EvidenceAgentInterface -/

/-- Model of `EvidenceAgentInterface.process` (the `_retrieve_evidence` stub
inlined). -/
def evidenceProcess (query : String) (context : PatientContext) : AgentResponse :=
  { agent := .evidence_lookup
    output := "Evidence-based guidelines for: " ++ query
    confidence := 9/10
    reasoning := "Retrieved evidence from medical guidelines."
    next_agents := [] }

/-! ### AgentOrchestrator

The `results` dict is an insertion-ordered association list keyed by
`AgentRole.value` strings; overwriting a key keeps the key's original
position (CPython dict semantics).  A registered agent map sends each role
to an optional process function; every agent in the source is pure
(its response depends only on the query and the context), which the
behaviour type records. -/

/-- One `results[...] = {...}` entry. -/
structure ResultEntry where
  output : String
  confidence : ℚ
  reasoning : String
deriving DecidableEq

/-- Insertion-ordered string-keyed dict. -/
def Dict := List (String × ResultEntry)

/-- A registered agent map (`self.agents`): role → process function. -/
def AgentMap := AgentRole → Option (String → PatientContext → AgentResponse)

/-- The `self.agents` map of `AgentOrchestrator.__init__`. -/
def defaultAgents : AgentMap
  | .diagnostician => some diagProcess
  | .safety_monitor => some safetyMonitorProcess
  | .documentation => some docProcess
  | .evidence_lookup => some evidenceProcess
  | .coordinator => none

/-- Dict write with CPython semantics: overwrite in place, else append. -/
def dictInsert (k : String) (v : ResultEntry) : Dict → Dict
  | [] => [(k, v)]
  | kv :: rest => if kv.1 = k then (k, v) :: rest else kv :: dictInsert k v rest

/-- Keys of a dict, in insertion order. -/
def dictKeys (d : Dict) : List String := d.map Prod.fst

/-- Dict lookup. -/
def dictLookup (k : String) : Dict → Option ResultEntry
  | [] => none
  | kv :: rest => if kv.1 = k then some kv.2 else dictLookup k rest

/-- The `for agent_role in active_agents` body of `run_reasoning_chain`:
unregistered roles are skipped (`continue`), registered ones are run, their
entry written to `results`, and their `next_agents` appended to the
round's `next_agents` accumulator. -/
def runRound (agents : AgentMap) (q : String) (ctx : PatientContext) :
    List AgentRole → Dict → List AgentRole → Dict × List AgentRole
  | [], results, nexts => (results, nexts)
  | r :: rest, results, nexts =>
    match agents r with
    | none => runRound agents q ctx rest results nexts
    | some proc =>
      let response := proc q ctx
      runRound agents q ctx rest
        (dictInsert r.value ⟨response.output, response.confidence, response.reasoning⟩ results)
        (nexts ++ response.next_agents)

/-- The `while active_agents and call_count < self.max_agent_calls` loop of
`run_reasoning_chain`, with fuel `10 - call_count` (`max_agent_calls = 10`).
Besides the `results` dict the model returns two ghost observations of the
run: the number of rounds executed (the source's `call_count`) and the list
of roles actually dispatched, in dispatch order. -/
def chainLoop (agents : AgentMap) (q : String) (ctx : PatientContext) :
    Nat → Dict → List AgentRole → Dict × Nat × List AgentRole
  | 0, results, _ => (results, 0, [])
  | n + 1, results, active =>
    if active = [] then (results, 0, [])
    else
      let rr := runRound agents q ctx active results []
      let rest := chainLoop agents q ctx n rr.1 rr.2.dedup
      (rest.1, rest.2.1 + 1, active.filter (fun r => (agents r).isSome) ++ rest.2.2)

/-- Model of `AgentOrchestrator.run_reasoning_chain`, for an arbitrary registered
agent map. -/
def run_reasoning_chain (agents : AgentMap) (q : String) (ctx : PatientContext) : Dict :=
  (chainLoop agents q ctx 10 [] [.diagnostician]).1

/-- Rounds executed by the dispatch loop (the source's final `call_count`). -/
def chainRounds (agents : AgentMap) (q : String) (ctx : PatientContext) : Nat :=
  (chainLoop agents q ctx 10 [] [.diagnostician]).2.1

/-- All roles dispatched during the run, in dispatch order. -/
def chainDispatched (agents : AgentMap) (q : String) (ctx : PatientContext) : List AgentRole :=
  (chainLoop agents q ctx 10 [] [.diagnostician]).2.2

/-- The `next_agents` a single role contributes to a round ([] when the
role is not registered). -/
def nextFor (agents : AgentMap) (q : String) (ctx : PatientContext) (r : AgentRole) :
    List AgentRole :=
  match agents r with
  | none => []
  | some proc => (proc q ctx).next_agents

/-- Concatenated successor nominations of a round. -/
def roundNexts (agents : AgentMap) (q : String) (ctx : PatientContext) :
    List AgentRole → List AgentRole
  | [] => []
  | r :: rest => nextFor agents q ctx r ++ roundNexts agents q ctx rest

/-- The active list after `n` more rounds (ignoring the fuel cap). -/
def activeAfter (agents : AgentMap) (q : String) (ctx : PatientContext) :
    Nat → List AgentRole → List AgentRole
  | 0, active => active
  | n + 1, active => activeAfter agents q ctx n (roundNexts agents q ctx active).dedup

/-- Variant of `run_reasoning_chain` with `list(set(next_agents))` modelled by an
arbitrary order oracle `f`: `f n l` is the linearization the Python `set`
happens to produce from `l` at fuel level `n`.  `chainLoop` is the
instance `f n l = l.dedup`. -/
def chainLoopOrd (agents : AgentMap) (q : String) (ctx : PatientContext)
    (f : Nat → List AgentRole → List AgentRole) :
    Nat → Dict → List AgentRole → Dict
  | 0, results, _ => results
  | n + 1, results, active =>
    if active = [] then results
    else
      let rr := runRound agents q ctx active results []
      chainLoopOrd agents q ctx f n rr.1 (f n rr.2)

/-- An order oracle is admissible when it returns the elements of its
input, in some order, without adding or losing any (what `list(set(l))`
guarantees). -/
def SameMembers (f : Nat → List AgentRole → List AgentRole) : Prop :=
  ∀ n l r, r ∈ f n l ↔ r ∈ l

/-- Fills every absent context key with the default the agents use
(`context.get(key, [])` / `context.get(key, "")`). -/
def normalizeCtx (c : PatientContext) : PatientContext :=
  { symptoms := some (c.symptoms.getD [])
    findings := some (c.findings.getD [])
    allergies := some (c.allergies.getD [])
    medications := some (c.medications.getD [])
    contraindications := some (c.contraindications.getD [])
    red_flags := some (c.red_flags.getD [])
    diagnosis := some (c.diagnosis.getD "")
    tests := some (c.tests.getD [])
    plan := some (c.plan.getD "") }

/-! ### Drug interaction checker (`drug_interactions.py`) -/

/-- The `InteractionSeverity` enum, in declaration order. -/
inductive InteractionSeverity where
  | CRITICAL
  | MAJOR
  | MODERATE
  | MINOR
  | INFO
deriving DecidableEq, Repr

/-- Position of a severity in `list(InteractionSeverity)` (the sort key of
`check_drug_drug_interactions`). -/
def severityIndex : InteractionSeverity → Nat
  | .CRITICAL => 0
  | .MAJOR => 1
  | .MODERATE => 2
  | .MINOR => 3
  | .INFO => 4

/-- The `Interaction` dataclass. -/
structure Interaction where
  drug1 : String
  drug2 : String
  severity : InteractionSeverity
  mechanism : String
  recommendation : String
deriving DecidableEq, Repr

/-- The `("warfarin", "aspirin")` record of
`DrugDatabase._build_interaction_db`. -/
def warfarinAspirin : Interaction :=
  { drug1 := "warfarin"
    drug2 := "aspirin"
    severity := .CRITICAL
    mechanism := "Increased bleeding risk due to dual anticoagulation"
    recommendation := "Avoid if possible. If necessary, monitor INR closely and adjust warfarin dose." }

/-- Model of `DrugDatabase._build_interaction_db` (`drug_drug_interactions`), in the
dict's insertion order. -/
def drug_drug_interactions : List ((String × String) × Interaction) :=
  [ (("warfarin", "aspirin"), warfarinAspirin),
    (("metformin", "contrast_dye"),
      { drug1 := "metformin", drug2 := "contrast_dye", severity := .MAJOR
        mechanism := "Risk of contrast-induced nephropathy and lactic acidosis"
        recommendation := "Hold metformin 48 hours before and after contrast procedure. Check renal function." }),
    (("lisinopril", "potassium"),
      { drug1 := "lisinopril", drug2 := "potassium", severity := .MAJOR
        mechanism := "Risk of hyperkalemia"
        recommendation := "Monitor K+ levels. Use only if indicated. Check renal function." }),
    (("simvastatin", "clarithromycin"),
      { drug1 := "simvastatin", drug2 := "clarithromycin", severity := .MAJOR
        mechanism := "Increased statin levels, risk of myopathy"
        recommendation := "Consider alternative antibiotic or temporary statin cessation." }),
    (("ssri", "maoi"),
      { drug1 := "ssri", drug2 := "maoi", severity := .CRITICAL
        mechanism := "Risk of serotonin syndrome"
        recommendation := "Absolute contraindication. Washout period required (14 days for MAOIs)." }),
    (("methotrexate", "nsaid"),
      { drug1 := "methotrexate", drug2 := "nsaid", severity := .MAJOR
        mechanism := "Decreased MTX clearance, increased toxicity"
        recommendation := "Avoid NSAIDs. Use acetaminophen or COX-2 inhibitors with caution." }) ]

/-- Model of `key in self.db.drug_drug_interactions` plus the dict read. -/
def interactionLookup (key : String × String) : Option Interaction :=
  (drug_drug_interactions.find? (fun p => p.1 = key)).map Prod.snd

/-- The ordered pairs `for i, drug1 in enumerate(medications): for drug2 in
medications[i+1:]` visits. -/
def pairsAfter : List String → List (String × String)
  | [] => []
  | d :: rest => rest.map (fun d2 => (d, d2)) ++ pairsAfter rest

/-- Stable ascending-by-severity insertion, so that the foldl sort below is
the stable sort Python's `list.sort(key=...)` performs. -/
def insertBySeverity (x : Interaction) : List Interaction → List Interaction
  | [] => [x]
  | y :: ys =>
    if severityIndex x.severity < severityIndex y.severity then x :: y :: ys
    else y :: insertBySeverity x ys

/-- Stable sort, ascending by `list(InteractionSeverity).index(x.severity)`. -/
def sortBySeverity (l : List Interaction) : List Interaction :=
  l.foldl (fun acc x => insertBySeverity x acc) []

/-- Model of `DrugInteractionChecker.check_drug_drug_interactions`. -/
def check_drug_drug_interactions (medications : List String) : List Interaction :=
  let found := (pairsAfter medications).filterMap (fun p =>
    let key1 := (pyLower p.1, pyLower p.2)
    let key2 := (pyLower p.2, pyLower p.1)
    match interactionLookup key1 with
    | some interaction => some interaction
    | none => interactionLookup key2)
  sortBySeverity found

/-- The result-map entry a registered role writes (none when the role is
not registered). -/
def entryOf (agents : AgentMap) (q : String) (ctx : PatientContext) (r : AgentRole) :
    Option ResultEntry :=
  (agents r).map (fun proc =>
    ⟨(proc q ctx).output, (proc q ctx).confidence, (proc q ctx).reasoning⟩)

/-! ## Helper lemmas -/

lemma value_injective : ∀ r r' : AgentRole, r.value = r'.value → r = r' := by
  intro r r' h
  cases r <;> cases r' <;> first
    | rfl
    | exact absurd h (by decide)

lemma dictLookup_insert (k' k : String) (v : ResultEntry) (d : Dict) :
    dictLookup k' (dictInsert k v d) = if k = k' then some v else dictLookup k' d := by
  induction d with
  | nil => simp [dictInsert, dictLookup]
  | cons kv rest ih =>
    by_cases h1 : kv.1 = k
    · subst h1
      by_cases h2 : kv.1 = k' <;> simp [dictInsert, dictLookup, h2]
    · by_cases h2 : kv.1 = k'
      · have h3 : ¬ k = k' := fun hh => h1 (h2.trans hh.symm)
        have h3' : ¬ k' = k := fun hh => h3 hh.symm
        simp [dictInsert, dictLookup, h1, h2, h3, h3']
      · simp [dictInsert, dictLookup, h1, h2, ih]

lemma mem_dictKeys_insert (k' k : String) (v : ResultEntry) (d : Dict) :
    k' ∈ dictKeys (dictInsert k v d) ↔ k' = k ∨ k' ∈ dictKeys d := by
  induction d with
  | nil => simp [dictInsert, dictKeys]
  | cons kv rest ih =>
    by_cases h1 : kv.1 = k
    · subst h1
      simp [dictInsert, dictKeys]
    · simp only [dictInsert]
      rw [if_neg h1]
      have e1 : dictKeys (kv :: dictInsert k v rest) = kv.1 :: dictKeys (dictInsert k v rest) := rfl
      have e2 : dictKeys (kv :: rest) = kv.1 :: dictKeys rest := rfl
      rw [e1, e2, List.mem_cons, List.mem_cons, ih]
      tauto

lemma dictKeys_insert_nodup (k : String) (v : ResultEntry) (d : Dict)
    (h : (dictKeys d).Nodup) : (dictKeys (dictInsert k v d)).Nodup := by
  induction d with
  | nil => simp [dictInsert, dictKeys]
  | cons kv rest ih =>
    rw [dictKeys, List.map_cons, List.nodup_cons] at h
    by_cases h1 : kv.1 = k
    · subst h1
      simpa [dictInsert, dictKeys, List.nodup_cons] using h
    · rw [dictInsert, if_neg h1, dictKeys, List.map_cons, List.nodup_cons]
      refine ⟨fun hmem => ?_, ih h.2⟩
      rw [← dictKeys, mem_dictKeys_insert] at hmem
      rcases hmem with h2 | h2
      · exact h1 (h2 ▸ rfl)
      · exact h.1 h2

lemma runRound_snd (agents : AgentMap) (q : String) (ctx : PatientContext) :
    ∀ (act : List AgentRole) (res : Dict) (nexts : List AgentRole),
      (runRound agents q ctx act res nexts).2 = nexts ++ roundNexts agents q ctx act := by
  intro act
  induction act with
  | nil => intro res nexts; simp [runRound, roundNexts]
  | cons r rest ih =>
    intro res nexts
    cases h : agents r with
    | none => simp [runRound, h, ih, roundNexts, nextFor]
    | some proc => simp [runRound, h, ih, roundNexts, nextFor, List.append_assoc]

lemma mem_roundNexts (agents : AgentMap) (q : String) (ctx : PatientContext) (r' : AgentRole) :
    ∀ act : List AgentRole,
      r' ∈ roundNexts agents q ctx act ↔ ∃ r ∈ act, r' ∈ nextFor agents q ctx r := by
  intro act
  induction act with
  | nil => simp [roundNexts]
  | cons r rest ih => simp [roundNexts, List.mem_append, ih]

lemma mem_runRound_keys (agents : AgentMap) (q : String) (ctx : PatientContext) (k : String) :
    ∀ (act : List AgentRole) (res : Dict) (nexts : List AgentRole),
      k ∈ dictKeys (runRound agents q ctx act res nexts).1 ↔
        k ∈ dictKeys res ∨ ∃ r ∈ act, (agents r).isSome ∧ k = r.value := by
  intro act
  induction act with
  | nil => intro res nexts; simp [runRound]
  | cons r rest ih =>
    intro res nexts
    cases h : agents r with
    | none => simp [runRound, h, ih]
    | some proc =>
      simp [runRound, h, ih, mem_dictKeys_insert]
      tauto

lemma nodup_runRound_keys (agents : AgentMap) (q : String) (ctx : PatientContext) :
    ∀ (act : List AgentRole) (res : Dict) (nexts : List AgentRole),
      (dictKeys res).Nodup → (dictKeys (runRound agents q ctx act res nexts).1).Nodup := by
  intro act
  induction act with
  | nil => intro res nexts h; simpa [runRound] using h
  | cons r rest ih =>
    intro res nexts h
    cases hr : agents r with
    | none => simpa [runRound, hr] using ih _ _ h
    | some proc =>
      simp only [runRound, hr]
      exact ih _ _ (dictKeys_insert_nodup _ _ _ h)

lemma chainLoop_rounds_le (agents : AgentMap) (q : String) (ctx : PatientContext) :
    ∀ (n : Nat) (res : Dict) (act : List AgentRole),
      (chainLoop agents q ctx n res act).2.1 ≤ n := by
  intro n
  induction n with
  | zero => intro res act; simp [chainLoop]
  | succ n ih =>
    intro res act
    by_cases h : act = []
    · simp [chainLoop, h]
    · simp only [chainLoop, if_neg h]
      exact Nat.succ_le_succ (ih _ _)

lemma chainLoop_keys_nodup (agents : AgentMap) (q : String) (ctx : PatientContext) :
    ∀ (n : Nat) (res : Dict) (act : List AgentRole),
      (dictKeys res).Nodup → (dictKeys (chainLoop agents q ctx n res act).1).Nodup := by
  intro n
  induction n with
  | zero => intro res act h; simpa [chainLoop] using h
  | succ n ih =>
    intro res act h
    by_cases ha : act = []
    · simpa [chainLoop, ha] using h
    · simp only [chainLoop, if_neg ha]
      exact ih _ _ (nodup_runRound_keys agents q ctx _ _ _ h)

lemma chainLoop_keys_mem (agents : AgentMap) (q : String) (ctx : PatientContext) (k : String) :
    ∀ (n : Nat) (res : Dict) (act : List AgentRole),
      k ∈ dictKeys (chainLoop agents q ctx n res act).1 ↔
        k ∈ dictKeys res ∨ ∃ r ∈ (chainLoop agents q ctx n res act).2.2, k = r.value := by
  intro n
  induction n with
  | zero => intro res act; simp [chainLoop]
  | succ n ih =>
    intro res act
    by_cases ha : act = []
    · simp [chainLoop, ha]
    · simp only [chainLoop, if_neg ha]
      rw [ih, mem_runRound_keys]
      constructor
      · rintro (h | ⟨r, hr, hk⟩)
        · rcases h with h | ⟨r, hr, hs, hk⟩
          · exact Or.inl h
          · exact Or.inr ⟨r, List.mem_append.mpr (Or.inl (List.mem_filter.mpr ⟨hr, hs⟩)), hk⟩
        · exact Or.inr ⟨r, List.mem_append.mpr (Or.inr hr), hk⟩
      · rintro (h | ⟨r, hr, hk⟩)
        · exact Or.inl (Or.inl h)
        · rcases List.mem_append.mp hr with h2 | h2
          · obtain ⟨hin, hs⟩ := List.mem_filter.mp h2
            exact Or.inl (Or.inr ⟨r, hin, hs, hk⟩)
          · exact Or.inr ⟨r, h2, hk⟩

lemma chainDispatched_isSome (agents : AgentMap) (q : String) (ctx : PatientContext) :
    ∀ (n : Nat) (res : Dict) (act : List AgentRole) (r : AgentRole),
      r ∈ (chainLoop agents q ctx n res act).2.2 → (agents r).isSome := by
  intro n
  induction n with
  | zero => intro res act r h; simp [chainLoop] at h
  | succ n ih =>
    intro res act r h
    by_cases ha : act = []
    · simp [chainLoop, ha] at h
    · simp only [chainLoop, if_neg ha] at h
      rw [List.mem_append] at h
      rcases h with h | h
      · exact (List.mem_filter.mp h).2
      · exact ih _ _ _ h

lemma chainLoop_rounds_le_of_activeAfter (agents : AgentMap) (q : String) (ctx : PatientContext) :
    ∀ (m n : Nat) (res : Dict) (act : List AgentRole),
      activeAfter agents q ctx m act = [] →
      (chainLoop agents q ctx n res act).2.1 ≤ m := by
  intro m
  induction m with
  | zero =>
    intro n res act h
    rw [activeAfter] at h
    cases n with
    | zero => simp [chainLoop]
    | succ n => simp [chainLoop, h]
  | succ m ih =>
    intro n res act h
    by_cases ha : act = []
    · cases n with
      | zero => simp [chainLoop]
      | succ n => simp [chainLoop, ha]
    · cases n with
      | zero => simp [chainLoop]
      | succ n =>
        simp only [chainLoop, if_neg ha]
        have hnext : (runRound agents q ctx act res []).2.dedup
            = (roundNexts agents q ctx act).dedup := by
          rw [runRound_snd]; simp
        have h' : activeAfter agents q ctx m ((roundNexts agents q ctx act).dedup) = [] := by
          simpa [activeAfter] using h
        have := ih n (runRound agents q ctx act res []).1
          ((runRound agents q ctx act res []).2.dedup) (by rw [hnext]; exact h')
        exact Nat.succ_le_succ this

lemma runRound_lookup_value (agents : AgentMap) (q : String) (ctx : PatientContext)
    (r : AgentRole) :
    ∀ (act : List AgentRole) (res : Dict) (nexts : List AgentRole),
      dictLookup r.value (runRound agents q ctx act res nexts).1 =
        if r ∈ act ∧ (agents r).isSome then entryOf agents q ctx r
        else dictLookup r.value res := by
  intro act
  induction act with
  | nil => intro res nexts; simp [runRound]
  | cons r0 rest ih =>
    intro res nexts
    cases h0 : agents r0 with
    | none =>
      by_cases hr : r = r0
      · subst hr
        simp [runRound, h0, ih]
      · simp [runRound, h0, ih, hr]
    | some proc =>
      by_cases hr : r = r0
      · subst hr
        simp only [runRound, h0]
        rw [ih]
        by_cases hrest : r ∈ rest
        · simp [hrest, h0, entryOf]
        · simp [hrest, dictLookup_insert, h0, entryOf]
      · have hv : ¬ r0.value = r.value := fun hh => hr (value_injective r r0 hh.symm)
        simp only [runRound, h0]
        rw [ih]
        simp [List.mem_cons, hr, dictLookup_insert, hv]

lemma runRound_lookup_other (agents : AgentMap) (q : String) (ctx : PatientContext)
    (k : String) (hk : ∀ r : AgentRole, r.value ≠ k) :
    ∀ (act : List AgentRole) (res : Dict) (nexts : List AgentRole),
      dictLookup k (runRound agents q ctx act res nexts).1 = dictLookup k res := by
  intro act
  induction act with
  | nil => intro res nexts; simp [runRound]
  | cons r0 rest ih =>
    intro res nexts
    cases h0 : agents r0 with
    | none => simp [runRound, h0, ih]
    | some proc => simp [runRound, h0, ih, dictLookup_insert, hk r0]

lemma chainLoopOrd_lookup_congr (agents : AgentMap) (q : String) (ctx : PatientContext)
    (f g : Nat → List AgentRole → List AgentRole)
    (hf : SameMembers f) (hg : SameMembers g) :
    ∀ (n : Nat) (res1 res2 : Dict) (act1 act2 : List AgentRole),
      (∀ k, dictLookup k res1 = dictLookup k res2) →
      (∀ r, r ∈ act1 ↔ r ∈ act2) →
      ∀ k, dictLookup k (chainLoopOrd agents q ctx f n res1 act1)
        = dictLookup k (chainLoopOrd agents q ctx g n res2 act2) := by
  intro n
  induction n with
  | zero => intro res1 res2 act1 act2 hres hact k; simpa [chainLoopOrd] using hres k
  | succ n ih =>
    intro res1 res2 act1 act2 hres hact k
    by_cases h1 : act1 = []
    · have h2 : act2 = [] := by
        rw [List.eq_nil_iff_forall_not_mem] at h1 ⊢
        intro r hr
        exact h1 r ((hact r).mpr hr)
      simp [chainLoopOrd, h1, h2, hres k]
    · have h2 : act2 ≠ [] := by
        intro h2
        apply h1
        rw [List.eq_nil_iff_forall_not_mem] at h2 ⊢
        intro r hr
        exact h2 r ((hact r).mp hr)
      simp only [chainLoopOrd, if_neg h1, if_neg h2]
      apply ih
      · intro k'
        by_cases hex : ∃ r : AgentRole, r.value = k'
        · obtain ⟨r, rfl⟩ := hex
          rw [runRound_lookup_value, runRound_lookup_value]
          by_cases hcond : r ∈ act1 ∧ (agents r).isSome
          · rw [if_pos hcond, if_pos ⟨(hact r).mp hcond.1, hcond.2⟩]
          · have hcond2 : ¬(r ∈ act2 ∧ (agents r).isSome) :=
              fun hc => hcond ⟨(hact r).mpr hc.1, hc.2⟩
            rw [if_neg hcond, if_neg hcond2]
            exact hres _
        · push_neg at hex
          rw [runRound_lookup_other agents q ctx _ hex, runRound_lookup_other agents q ctx _ hex]
          exact hres _
      · intro r
        rw [hf, hg, runRound_snd, runRound_snd]
        simp only [List.nil_append]
        rw [mem_roundNexts, mem_roundNexts]
        constructor
        · rintro ⟨r0, hr0, hn⟩
          exact ⟨r0, (hact r0).mp hr0, hn⟩
        · rintro ⟨r0, hr0, hn⟩
          exact ⟨r0, (hact r0).mpr hr0, hn⟩

lemma chainLoopOrd_dedup (agents : AgentMap) (q : String) (ctx : PatientContext) :
    ∀ (n : Nat) (res : Dict) (act : List AgentRole),
      chainLoopOrd agents q ctx (fun _ l => l.dedup) n res act
        = (chainLoop agents q ctx n res act).1 := by
  intro n
  induction n with
  | zero => intro res act; simp [chainLoopOrd, chainLoop]
  | succ n ih =>
    intro res act
    by_cases h : act = [] <;> simp [chainLoopOrd, chainLoop, h, ih]

lemma activeAfter_zero (agents : AgentMap) (q : String) (ctx : PatientContext)
    (act : List AgentRole) : activeAfter agents q ctx 0 act = act := rfl

lemma activeAfter_succ (agents : AgentMap) (q : String) (ctx : PatientContext)
    (n : Nat) (act : List AgentRole) :
    activeAfter agents q ctx (n + 1) act
      = activeAfter agents q ctx n (roundNexts agents q ctx act).dedup := rfl

lemma roundNexts_diag (q : String) (ctx : PatientContext) :
    roundNexts defaultAgents q ctx [.diagnostician] = [.safety_monitor, .evidence_lookup] := by
  simp [roundNexts, nextFor, defaultAgents, diagProcess]

lemma safety_next (q : String) (ctx : PatientContext) :
    (safetyMonitorProcess q ctx).next_agents =
      if (identify_safety_issues q (ctx.allergies.getD []) (ctx.medications.getD [])
          (ctx.contraindications.getD []) (ctx.red_flags.getD [])).isEmpty
      then [.documentation] else [.evidence_lookup] := by
  simp [safetyMonitorProcess]

lemma default_activeAfter (q : String) (ctx : PatientContext) :
    activeAfter defaultAgents q ctx 3 [.diagnostician] = [] := by
  rw [show (3 : Nat) = 2 + 1 from rfl, activeAfter_succ, roundNexts_diag,
    show ([AgentRole.safety_monitor, .evidence_lookup]).dedup
      = [AgentRole.safety_monitor, .evidence_lookup] from by decide]
  have hrn : roundNexts defaultAgents q ctx [.safety_monitor, .evidence_lookup]
      = (safetyMonitorProcess q ctx).next_agents := by
    simp [roundNexts, nextFor, defaultAgents, evidenceProcess]
  rw [show (2 : Nat) = 1 + 1 from rfl, activeAfter_succ, hrn, safety_next]
  by_cases hb : (identify_safety_issues q (ctx.allergies.getD []) (ctx.medications.getD [])
      (ctx.contraindications.getD []) (ctx.red_flags.getD [])).isEmpty = true
  · rw [if_pos hb,
      show ([AgentRole.documentation]).dedup = [AgentRole.documentation] from by decide,
      show (1 : Nat) = 0 + 1 from rfl, activeAfter_succ,
      show roundNexts defaultAgents q ctx [.documentation] = [] from by
        simp [roundNexts, nextFor, defaultAgents, docProcess],
      show (([] : List AgentRole)).dedup = [] from by decide, activeAfter_zero]
  · rw [if_neg hb,
      show ([AgentRole.evidence_lookup]).dedup = [AgentRole.evidence_lookup] from by decide,
      show (1 : Nat) = 0 + 1 from rfl, activeAfter_succ,
      show roundNexts defaultAgents q ctx [.evidence_lookup] = [] from by
        simp [roundNexts, nextFor, defaultAgents, evidenceProcess],
      show (([] : List AgentRole)).dedup = [] from by decide, activeAfter_zero]

lemma fmtPct_zero : fmtPct 0 = "0.0%" := by
  have h1 : (0 : ℚ) * 1000 + (1/2 : ℚ) = 1/2 := by norm_num
  have h2 : ⌊(1/2 : ℚ)⌋ = 0 := by
    rw [Int.floor_eq_zero_iff]
    constructor <;> norm_num
  simp only [fmtPct, h1, h2]
  decide

lemma generate_differential_nil :
    generate_differential [] [] =
      [("Pneumonia", 0), ("Bronchitis", 0), ("Malaria", 0), ("Tuberculosis", 0),
        ("Influenza", 0)] := by
  norm_num [generate_differential, symptom_profiles, sortDesc, insertDesc]
  simp [List.filterMap_cons, insertDesc, lt_self_iff_false]

lemma format_differential_nil :
    format_differential
        [("Pneumonia", 0), ("Bronchitis", 0), ("Malaria", 0), ("Tuberculosis", 0),
          ("Influenza", 0)]
      = "DIFFERENTIAL DIAGNOSES:\n1. Pneumonia: 0.0%\n2. Bronchitis: 0.0%\n3. Malaria: 0.0%\n4. Tuberculosis: 0.0%\n5. Influenza: 0.0%\n" := by
  simp only [format_differential, fmtDiffLines, fmtPct_zero]
  decide

/-! ## Claim theorems -/

/-- C1: the claim states that SafetyMonitor's confidence equals
`max(0.0, 1.0 − 0.2 × issue_count)` and so always lies in [0, 1].  The code
computes `1.0 - len(issues) * 0.2` with no clamping: on the query "abcdef"
with the six declared allergies "a".."f" the monitor finds 6 issues and
returns confidence −1/5, which is negative and differs from
`max(0, 1 − 0.2·6) = 0`. -/
theorem C1_confidence_not_clamped :
    (identify_safety_issues "abcdef" ["a", "b", "c", "d", "e", "f"] [] [] []).length = 6 ∧
    (safetyMonitorProcess "abcdef"
      { allergies := some ["a", "b", "c", "d", "e", "f"] }).confidence = -(1/5) ∧
    (safetyMonitorProcess "abcdef"
      { allergies := some ["a", "b", "c", "d", "e", "f"] }).confidence < 0 := by
  have hlen : (identify_safety_issues "abcdef" ["a", "b", "c", "d", "e", "f"] [] [] []).length
      = 6 := by decide
  refine ⟨hlen, ?_, ?_⟩ <;> simp [safetyMonitorProcess, hlen] <;> norm_num

/-- C2: for every registered agent map and every (pure) successor-nomination
behaviour, the dispatch loop executes at most 10 rounds, the result-map keys
are pairwise distinct, and a role was dispatched at some point iff its
string identity is a key of the final result map — so every dispatched
identity appears exactly once among the keys. -/
theorem C2_terminates_and_keys_once (agents : AgentMap) (q : String) (ctx : PatientContext) :
    chainRounds agents q ctx ≤ 10 ∧
    (dictKeys (run_reasoning_chain agents q ctx)).Nodup ∧
    (∀ r : AgentRole, r ∈ chainDispatched agents q ctx ↔
        r.value ∈ dictKeys (run_reasoning_chain agents q ctx)) ∧
    (∀ r : AgentRole, r ∈ chainDispatched agents q ctx →
        (dictKeys (run_reasoning_chain agents q ctx)).count r.value = 1) := by
  have hnodup : (dictKeys (run_reasoning_chain agents q ctx)).Nodup :=
    chainLoop_keys_nodup agents q ctx 10 [] _ (by simp [dictKeys])
  have hmem : ∀ r : AgentRole, r ∈ chainDispatched agents q ctx ↔
      r.value ∈ dictKeys (run_reasoning_chain agents q ctx) := by
    intro r
    simp only [run_reasoning_chain, chainDispatched]
    rw [chainLoop_keys_mem]
    constructor
    · intro hr
      exact Or.inr ⟨r, hr, rfl⟩
    · rintro (h | ⟨r', hr', hk⟩)
      · simp [dictKeys] at h
      · rwa [value_injective r r' hk]
  exact ⟨chainLoop_rounds_le agents q ctx 10 [] _, hnodup, hmem,
    fun r hr => List.count_eq_one_of_mem hnodup ((hmem r).mp hr)⟩

/-- C3: throughout every execution of the dispatch loop, the result map has
at most one entry per distinct agent identity: from any intermediate state
whose result-map keys are pairwise distinct (in particular the initial empty
map), the keys stay pairwise distinct to the end, whatever duplicate
successor nominations occur. -/
theorem C3_at_most_one_entry_per_identity (agents : AgentMap) (q : String)
    (ctx : PatientContext) (n : Nat) (res : Dict) (act : List AgentRole)
    (h : (dictKeys res).Nodup) :
    (dictKeys (chainLoop agents q ctx n res act).1).Nodup :=
  chainLoop_keys_nodup agents q ctx n res act h

/-- Witness for C3 at the default agents, fuel 10, empty results and the
seed active list. -/
theorem C3_at_most_one_entry_per_identity_witness :
    (dictKeys (chainLoop defaultAgents "q" {} 10 [] [.diagnostician]).1).Nodup :=
  C3_at_most_one_entry_per_identity defaultAgents "q" {} 10 [] [.diagnostician] (by decide)

/-- C4: with the default registered agents, the active set is empty after at
most 3 rounds for every query and context (round 1: Diagnostician; round 2:
SafetyMonitor and EvidenceLookup; round 3: Documentation or EvidenceLookup,
both terminal), so the loop's final `call_count` is at most 3. -/
theorem C4_default_chain_three_rounds (q : String) (ctx : PatientContext) :
    activeAfter defaultAgents q ctx 3 [.diagnostician] = [] ∧
    chainRounds defaultAgents q ctx ≤ 3 := by
  have hact := default_activeAfter q ctx
  exact ⟨hact, chainLoop_rounds_le_of_activeAfter defaultAgents q ctx 3 10 [] _ hact⟩

/-- C5: a successor identity that is not in the registered agent map is
skipped by the round loop exactly as if it had not been nominated (the
`continue` branch), and its identity never occurs among the result-map
keys. -/
theorem C5_unknown_identity_skipped (agents : AgentMap) (q : String) (ctx : PatientContext)
    (r : AgentRole) (h : agents r = none) :
    (∀ (rest : List AgentRole) (res : Dict) (nexts : List AgentRole),
        runRound agents q ctx (r :: rest) res nexts = runRound agents q ctx rest res nexts) ∧
    r.value ∉ dictKeys (run_reasoning_chain agents q ctx) := by
  constructor
  · intro rest res nexts
    simp [runRound, h]
  · intro hmem
    simp only [run_reasoning_chain] at hmem
    rw [chainLoop_keys_mem] at hmem
    rcases hmem with hmem | ⟨r', hr', hk⟩
    · simp [dictKeys] at hmem
    · have hrr : r = r' := value_injective r r' hk
      subst hrr
      have hsome := chainDispatched_isSome agents q ctx 10 [] [.diagnostician] r hr'
      rw [h] at hsome
      simp at hsome

/-- Witness for C5: the Coordinator role is not registered in the default
orchestrator and never appears among the result keys. -/
theorem C5_unknown_identity_skipped_witness :
    AgentRole.coordinator.value ∉ dictKeys (run_reasoning_chain defaultAgents "q" {}) :=
  (C5_unknown_identity_skipped defaultAgents "q" {} .coordinator rfl).2

/-- C6 counterexample: on the empty-symptom, empty-finding context the
Diagnostician's confidence is 0.0 as claimed, but its output does not state
that no strong match was found — it is the formatted differential listing
five diagnoses at 0.0% each, and does not contain the phrase
"no strong match" (checked case-insensitively). -/
theorem C6_counterexample :
    (diagProcess "q" { symptoms := some [], findings := some [] }).confidence = 0 ∧
    (diagProcess "q" { symptoms := some [], findings := some [] }).output
      = "DIFFERENTIAL DIAGNOSES:\n1. Pneumonia: 0.0%\n2. Bronchitis: 0.0%\n3. Malaria: 0.0%\n4. Tuberculosis: 0.0%\n5. Influenza: 0.0%\n" ∧
    pyIn (pyLower "no strong match")
      (pyLower (diagProcess "q" { symptoms := some [], findings := some [] }).output) = false := by
  have hout : (diagProcess "q" { symptoms := some [], findings := some [] }).output
      = "DIFFERENTIAL DIAGNOSES:\n1. Pneumonia: 0.0%\n2. Bronchitis: 0.0%\n3. Malaria: 0.0%\n4. Tuberculosis: 0.0%\n5. Influenza: 0.0%\n" := by
    simp only [diagProcess, Option.getD_some, generate_differential_nil]
    exact format_differential_nil
  refine ⟨?_, hout, ?_⟩
  · simp [diagProcess, generate_differential_nil]
  · rw [hout]
    decide

/-- C6 as amended: for every context whose symptoms and findings lists are
both empty, the Diagnostician's confidence is 0.0 and its output is the
formatted differential listing the first five knowledge-base diagnoses at
0.0% each (no statement about a missing strong match). -/
theorem C6_amended_empty_context (q : String) (ctx : PatientContext)
    (hs : ctx.symptoms.getD [] = []) (hf : ctx.findings.getD [] = []) :
    (diagProcess q ctx).confidence = 0 ∧
    (diagProcess q ctx).output
      = "DIFFERENTIAL DIAGNOSES:\n1. Pneumonia: 0.0%\n2. Bronchitis: 0.0%\n3. Malaria: 0.0%\n4. Tuberculosis: 0.0%\n5. Influenza: 0.0%\n" := by
  constructor
  · simp [diagProcess, hs, hf, generate_differential_nil]
  · simp only [diagProcess, hs, hf, generate_differential_nil]
    exact format_differential_nil

/-- Witness for the amended C6 at a concrete empty context. -/
theorem C6_amended_empty_context_witness :
    (diagProcess "q" { symptoms := some [], findings := some [] }).confidence = 0 :=
  (C6_amended_empty_context "q"
    { symptoms := some [], findings := some [] } rfl rfl).1

/-- C7: whenever the proposed-treatment text contains one of the declared
allergies as a case-insensitive substring, the identified issue list is
non-empty, the classification is never "Safe", and it is "ALERT" for more
than two issues and "Caution" otherwise. -/
theorem C7_allergy_never_safe (q : String) (ctx : PatientContext) (allergy : String)
    (hmem : allergy ∈ ctx.allergies.getD [])
    (hsub : pyIn (pyLower allergy) (pyLower q) = true) :
    1 ≤ (identify_safety_issues q (ctx.allergies.getD []) (ctx.medications.getD [])
        (ctx.contraindications.getD []) (ctx.red_flags.getD [])).length ∧
    safetyLevel (identify_safety_issues q (ctx.allergies.getD []) (ctx.medications.getD [])
        (ctx.contraindications.getD []) (ctx.red_flags.getD [])) ≠ "Safe" ∧
    safetyLevel (identify_safety_issues q (ctx.allergies.getD []) (ctx.medications.getD [])
        (ctx.contraindications.getD []) (ctx.red_flags.getD []))
      = if (identify_safety_issues q (ctx.allergies.getD []) (ctx.medications.getD [])
            (ctx.contraindications.getD []) (ctx.red_flags.getD [])).length > 2
        then "ALERT" else "Caution" := by
  have hlen : 1 ≤ (identify_safety_issues q (ctx.allergies.getD []) (ctx.medications.getD [])
      (ctx.contraindications.getD []) (ctx.red_flags.getD [])).length := by
    simp only [identify_safety_issues]
    have hmem2 : ("CRITICAL: Patient allergic to " ++ allergy) ∈
        (ctx.allergies.getD []).filterMap (fun a =>
          if pyIn (pyLower a) (pyLower q) = true
          then some ("CRITICAL: Patient allergic to " ++ a) else none) :=
      List.mem_filterMap.mpr ⟨allergy, hmem, by simp [hsub]⟩
    have hpos := List.length_pos.mpr (List.ne_nil_of_mem hmem2)
    simp only [List.length_append]
    omega
  have hempty : (identify_safety_issues q (ctx.allergies.getD []) (ctx.medications.getD [])
      (ctx.contraindications.getD []) (ctx.red_flags.getD [])).isEmpty = false := by
    rcases hiss : identify_safety_issues q (ctx.allergies.getD []) (ctx.medications.getD [])
        (ctx.contraindications.getD []) (ctx.red_flags.getD []) with _ | ⟨a, l⟩
    · rw [hiss] at hlen
      simp at hlen
    · rfl
  refine ⟨hlen, ?_, ?_⟩
  · simp only [safetyLevel, hempty, Bool.false_eq_true, if_false]
    by_cases hgt : (identify_safety_issues q (ctx.allergies.getD []) (ctx.medications.getD [])
        (ctx.contraindications.getD []) (ctx.red_flags.getD [])).length > 2
    · simp only [hgt, if_true]
      decide
    · simp only [hgt, if_false]
      decide
  · simp only [safetyLevel, hempty, Bool.false_eq_true, if_false]

/-- Witness for C7: proposing "give penicillin" to a patient with declared
allergy "Penicillin". -/
theorem C7_allergy_never_safe_witness :
    safetyLevel (identify_safety_issues "give penicillin"
        (({ allergies := some ["Penicillin"] } : PatientContext).allergies.getD [])
        (({ allergies := some ["Penicillin"] } : PatientContext).medications.getD [])
        (({ allergies := some ["Penicillin"] } : PatientContext).contraindications.getD [])
        (({ allergies := some ["Penicillin"] } : PatientContext).red_flags.getD []))
      ≠ "Safe" :=
  (C7_allergy_never_safe "give penicillin" { allergies := some ["Penicillin"] } "Penicillin"
    (by decide) (by decide)).2.1

/-- C8: for medications ["warfarin", "aspirin"] the checker returns exactly
the one CRITICAL warfarin/aspirin record, and the reversed input order
returns the same single record. -/
theorem C8_warfarin_aspirin_detected_both_orders :
    check_drug_drug_interactions ["warfarin", "aspirin"] = [warfarinAspirin] ∧
    check_drug_drug_interactions ["aspirin", "warfarin"] = [warfarinAspirin] ∧
    warfarinAspirin.severity = InteractionSeverity.CRITICAL :=
  ⟨by decide, by decide, rfl⟩

/-- C9: every agent's process is total on contexts with absent keys, and
absent keys behave exactly as their defaults: each process returns the same
response on a context and on its normalization, in which every absent key
has been replaced by the empty list or empty string. -/
theorem C9_absent_keys_default (q : String) (ctx : PatientContext) :
    diagProcess q ctx = diagProcess q (normalizeCtx ctx) ∧
    safetyMonitorProcess q ctx = safetyMonitorProcess q (normalizeCtx ctx) ∧
    docProcess q ctx = docProcess q (normalizeCtx ctx) ∧
    evidenceProcess q ctx = evidenceProcess q (normalizeCtx ctx) := by
  refine ⟨?_, ?_, ?_, rfl⟩ <;>
    simp [diagProcess, safetyMonitorProcess, docProcess, normalizeCtx]

/-- C10: the reasoning chain is deterministic in the iteration order of the
deduplicated successor sets: any two admissible linearizations of
`list(set(next_agents))` produce result maps with identical lookups, and
the dedup linearization is exactly `run_reasoning_chain`. -/
theorem C10_order_deterministic (agents : AgentMap) (q : String) (ctx : PatientContext)
    (f g : Nat → List AgentRole → List AgentRole)
    (hf : SameMembers f) (hg : SameMembers g) :
    (∀ k, dictLookup k (chainLoopOrd agents q ctx f 10 [] [.diagnostician])
        = dictLookup k (chainLoopOrd agents q ctx g 10 [] [.diagnostician])) ∧
    chainLoopOrd agents q ctx (fun _ l => l.dedup) 10 [] [.diagnostician]
      = run_reasoning_chain agents q ctx :=
  ⟨chainLoopOrd_lookup_congr agents q ctx f g hf hg 10 [] [] [.diagnostician] [.diagnostician]
      (fun _ => rfl) (fun _ => Iff.rfl),
    chainLoopOrd_dedup agents q ctx 10 [] [.diagnostician]⟩

/-- Witness for C10: two different admissible linearizations (dedup and
reversed dedup) agree at the key "diagnostician" on a concrete run. -/
theorem C10_order_deterministic_witness :
    dictLookup "diagnostician"
        (chainLoopOrd defaultAgents "q" {} (fun _ l => l.dedup) 10 [] [.diagnostician])
      = dictLookup "diagnostician"
        (chainLoopOrd defaultAgents "q" {} (fun _ l => l.dedup.reverse) 10 [] [.diagnostician]) :=
  (C10_order_deterministic defaultAgents "q" {} (fun _ l => l.dedup)
    (fun _ l => l.dedup.reverse)
    (fun _ _ _ => List.mem_dedup)
    (fun _ _ _ => by rw [List.mem_reverse]; exact List.mem_dedup)).1 "diagnostician"

end ClinAssist
